import Mathlib

/-!
Verification of the FCM call-notification relay (`api/index.js` and its
variant copy) against its specification.  The JavaScript handler is
shallowly embedded: JavaScript values that flow through the request body
are modelled by `JSVal` (with JS truthiness, `typeof`-string tests and
`.toString()` semantics), the lazy Firebase initialisation is explicit
state passing over `GatewayState`, and the external collaborators
(Firestore lookup, FCM send) are fields of an environment record.  The
handler records every store lookup, every gateway send and every emitted
HTTP response, so "never invoked" and "exactly once" properties are
statements about those lists.
-/

namespace FcmRelay

/-- A JavaScript value as it can appear in a parsed JSON request body or a
Firestore document field.  `undef` models a missing property. -/
inductive JSVal where
  | undef
  | null
  | bool (b : Bool)
  | num (n : Int)
  | str (s : String)
deriving DecidableEq, Repr

/-- JavaScript truthiness of a `JSVal` (`!v` in the source negates this). -/
def truthy : JSVal → Bool
  | JSVal.undef => false
  | JSVal.null => false
  | JSVal.bool b => b
  | JSVal.num n => !(n == 0)
  | JSVal.str s => !(s == "")

/-- `typeof v === 'string'`. -/
def isString : JSVal → Bool
  | JSVal.str _ => true
  | _ => false

/-- `v.toString()`: defined for booleans, numbers and strings; calling it on
`undefined` or `null` throws a TypeError, modelled as `none`. -/
def jsToString : JSVal → Option String
  | JSVal.undef => none
  | JSVal.null => none
  | JSVal.bool b => some (if b then "true" else "false")
  | JSVal.num n => some (toString n)
  | JSVal.str s => some s

/-- `sub` occurs as a substring of `hay`: `hay.includes(sub)` in the source. -/
def strIncludes (hay sub : String) : Bool :=
  (List.range (hay.length + 1)).any fun i => sub.toList.isPrefixOf (hay.toList.drop i)

/-- The request body of `POST /api/send-call` as destructured by the source:
four properties, each an arbitrary JS value (`undef` when absent). -/
structure CallBody where
  targetUserId : JSVal
  channelName : JSVal
  callerId : JSVal
  isVideoCall : JSVal
deriving DecidableEq, Repr

/-- The part of the HTTP request the handler reads: the content-type header
(`none` when absent) and the parsed body. -/
structure HttpRequest where
  contentType : Option String
  body : CallBody
deriving DecidableEq, Repr

/-- Step 1 of the handler: `!contentType || !contentType.includes('application/json')`
rejects the request; this is the complementary acceptance test. -/
def contentTypeOk : Option String → Bool
  | none => false
  | some ct => !(ct == "") && strIncludes ct "application/json"

/-- `validateCallRequest` from `api/index.js` lines 71-86: accumulates one
error string per offending field, in source order. -/
def validateCallRequest (body : CallBody) : List String :=
  (if !(truthy body.targetUserId) || !(isString body.targetUserId) then
      ["targetUserId is required and must be a string"] else [])
  ++ (if !(truthy body.channelName) || !(isString body.channelName) then
      ["channelName is required and must be a string"] else [])
  ++ (if !(truthy body.callerId) || !(isString body.callerId) then
      ["callerId is required and must be a string"] else [])

/-- The configuration and fallible external calls `initializeFirebase` makes:
the `FIREBASE_SERVICE_ACCOUNT_KEY` variable, the outcome of `JSON.parse` on
it, and the outcomes of the two `admin.initializeApp` call forms. -/
structure GatewayEnv where
  serviceAccountRaw : Option String
  parseResult : String → Except String Unit
  certInitResult : Except String Unit
  defaultInitResult : Except String Unit

/-- The module-level mutable state of `api/index.js` (`firebaseReady`,
`firebaseError`, `admin.apps.length`), instrumented with counters for how
many `JSON.parse` and `admin.initializeApp` calls have been performed. -/
structure GatewayState where
  firebaseReady : Bool
  firebaseError : Option String
  appsCount : Nat
  parseCount : Nat
  initCount : Nat
deriving DecidableEq, Repr

/-- The state at process start: not ready, no recorded error, no app. -/
def GatewayState.initial : GatewayState :=
  { firebaseReady := false, firebaseError := none, appsCount := 0,
    parseCount := 0, initCount := 0 }

/-- `initializeFirebase` from `api/index.js` lines 33-68: early return on
`firebaseReady`, early rejection with the cached `firebaseError`, otherwise
one attempt (parse the credential when present, then `initializeApp` unless
an app already exists), recording success in `firebaseReady` and any thrown
error in `firebaseError`. -/
def initializeFirebase (env : GatewayEnv) (s : GatewayState) :
    Except String Unit × GatewayState :=
  if s.firebaseReady then (Except.ok (), s)
  else match s.firebaseError with
  | some e => (Except.error e, s)
  | none =>
    match env.serviceAccountRaw with
    | some raw =>
      let s1 : GatewayState := { s with parseCount := s.parseCount + 1 }
      match env.parseResult raw with
      | Except.error e => (Except.error e, { s1 with firebaseError := some e })
      | Except.ok _ =>
        if s1.appsCount == 0 then
          let s2 : GatewayState := { s1 with initCount := s1.initCount + 1 }
          match env.certInitResult with
          | Except.error e => (Except.error e, { s2 with firebaseError := some e })
          | Except.ok _ =>
            (Except.ok (), { s2 with appsCount := 1, firebaseReady := true })
        else (Except.ok (), { s1 with firebaseReady := true })
    | none =>
      if s.appsCount == 0 then
        let s2 : GatewayState := { s with initCount := s.initCount + 1 }
        match env.defaultInitResult with
        | Except.error e => (Except.error e, { s2 with firebaseError := some e })
        | Except.ok _ =>
          (Except.ok (), { s2 with appsCount := 1, firebaseReady := true })
      else (Except.ok (), { s with firebaseReady := true })

/-- `message.data`: all values FCM data-payload strings, except that the
`channel_name`/`caller_id` slots carry the body values (strings once
validation has passed). -/
structure DataPayload where
  type : String
  channel_name : JSVal
  caller_id : JSVal
  is_video : String
  timestamp : String
deriving DecidableEq, Repr

/-- `message.notification`. -/
structure NotificationBlock where
  title : String
  body : String
deriving DecidableEq, Repr

/-- `message.android.notification`; `sound` is present only in the variant
copy of the file. -/
structure AndroidNotification where
  channelId : String
  sound : Option String
deriving DecidableEq, Repr

/-- `message.android`. -/
structure AndroidBlock where
  priority : String
  notification : AndroidNotification
deriving DecidableEq, Repr

/-- `apns.payload.aps.alert` as present in the variant copy. -/
structure ApsAlert where
  title : String
  body : String
deriving DecidableEq, Repr

/-- `message.apns.payload.aps`: the two background-delivery flags and an
optional alert sub-block (`none` when the source omits it). -/
structure ApsBlock where
  content_available : Nat
  mutable_content : Nat
  alert : Option ApsAlert
deriving DecidableEq, Repr

/-- `message.apns` (its single `payload.aps` object). -/
structure ApnsBlock where
  payload_aps : ApsBlock
deriving DecidableEq, Repr

/-- The FCM message object built at step 5 of the handler. -/
structure FcmMessage where
  token : JSVal
  data : DataPayload
  notification : NotificationBlock
  android : AndroidBlock
  apns : ApnsBlock
deriving DecidableEq, Repr

/-- The message literal of `api/index.js` lines 157-186.  `isVideo` is the
truthiness of the (defaulted) `isVideoCall` value and `isVideoStr` its
`.toString()`; `now` is `Date.now()`. -/
def buildMessage (fcmToken channelName callerId : JSVal) (isVideo : Bool)
    (isVideoStr : String) (now : Nat) : FcmMessage :=
  { token := fcmToken
  , data :=
    { type := "call"
    , channel_name := channelName
    , caller_id := callerId
    , is_video := isVideoStr
    , timestamp := toString now }
  , notification :=
    { title := "Входящий звонок"
    , body := if isVideo then "Видеовызов" else "Аудиовызов" }
  , android :=
    { priority := "high"
    , notification := { channelId := "calls", sound := none } }
  , apns :=
    { payload_aps :=
      { content_available := 1, mutable_content := 1, alert := none } } }

/-- The message literal of the variant copy (`src/unnamed/part_000` lines
156-188): same fields, plus `android.notification.sound = 'default'` and an
`apns` alert sub-block repeating the notification title/body. -/
def buildMessageAlt (fcmToken channelName callerId : JSVal) (isVideo : Bool)
    (isVideoStr : String) (now : Nat) : FcmMessage :=
  { token := fcmToken
  , data :=
    { type := "call"
    , channel_name := channelName
    , caller_id := callerId
    , is_video := isVideoStr
    , timestamp := toString now }
  , notification :=
    { title := "Входящий звонок"
    , body := if isVideo then "Видеовызов" else "Аудиовызов" }
  , android :=
    { priority := "high"
    , notification := { channelId := "calls", sound := some "default" } }
  , apns :=
    { payload_aps :=
      { content_available := 1, mutable_content := 1
      , alert := some
          { title := "Входящий звонок"
          , body := if isVideo then "Видеовызов" else "Аудиовызов" } } } }

/-- A Firestore user document as the handler reads it: `userDoc.exists` and
`userDoc.data().fcmToken`. -/
structure UserDoc where
  exists_ : Bool
  fcmToken : JSVal
deriving DecidableEq, Repr

/-- An error thrown by `admin.messaging().send`; only its `code` property is
inspected. -/
structure SendErr where
  code : String
deriving DecidableEq, Repr

/-- The handler's external collaborators: the gateway configuration, the
Firestore point lookup keyed by the `targetUserId` value, and the FCM send
operation. -/
structure ServerEnv where
  gateway : GatewayEnv
  getUserDoc : JSVal → Except String UserDoc
  sendResult : FcmMessage → Except SendErr String

/-- The distinct HTTP responses `POST /api/send-call` can emit. -/
inductive Response where
  | unsupportedMediaType
  | badRequest (details : List String)
  | serverConfigError
  | targetNotFound
  | noToken
  | databaseError
  | success (messageId : String)
  | invalidToken
  | serviceError
deriving DecidableEq, Repr

/-- The HTTP status code of each response. -/
def Response.status : Response → Nat
  | Response.unsupportedMediaType => 415
  | Response.badRequest _ => 400
  | Response.serverConfigError => 500
  | Response.targetNotFound => 404
  | Response.noToken => 400
  | Response.databaseError => 500
  | Response.success _ => 200
  | Response.invalidToken => 400
  | Response.serviceError => 503

/-- What one execution of the handler did: the responses it emitted (in
order), the final gateway state, the store lookups performed (their keys)
and the messages passed to the gateway send operation. -/
structure HandlerOutcome where
  responses : List Response
  state : GatewayState
  lookups : List JSVal
  sends : List FcmMessage
deriving Repr

/-- `const { isVideoCall = false } = req.body`: the destructuring default
applies exactly when the property is `undefined`. -/
def defaultedIsVideoCall (v : JSVal) : JSVal :=
  if v == JSVal.undef then JSVal.bool false else v

/-- The `POST /api/send-call` handler, `api/index.js` lines 89-217.
Step order as in the source: content-type check, body validation, lazy
Firebase initialisation, Firestore lookup (not-found, then missing-token
checks), message construction (where `isVideoCall.toString()` throws for a
`null` value, ending the execution with no response), then the send with
its error-code classification. -/
def sendCallHandler (env : ServerEnv) (now : Nat) (req : HttpRequest)
    (s : GatewayState) : HandlerOutcome :=
  if !(contentTypeOk req.contentType) then
    { responses := [Response.unsupportedMediaType], state := s,
      lookups := [], sends := [] }
  else
  let errors := validateCallRequest req.body
  if errors.length > 0 then
    { responses := [Response.badRequest errors], state := s,
      lookups := [], sends := [] }
  else
  let ivc := defaultedIsVideoCall req.body.isVideoCall
  let ir := initializeFirebase env.gateway s
  match ir.1 with
  | Except.error _ =>
    { responses := [Response.serverConfigError], state := ir.2,
      lookups := [], sends := [] }
  | Except.ok _ =>
    match env.getUserDoc req.body.targetUserId with
    | Except.error _ =>
      { responses := [Response.databaseError], state := ir.2,
        lookups := [req.body.targetUserId], sends := [] }
    | Except.ok userDoc =>
      if !userDoc.exists_ then
        { responses := [Response.targetNotFound], state := ir.2,
          lookups := [req.body.targetUserId], sends := [] }
      else
      let fcmToken := userDoc.fcmToken
      if !(truthy fcmToken) then
        { responses := [Response.noToken], state := ir.2,
          lookups := [req.body.targetUserId], sends := [] }
      else
      match jsToString ivc with
      | none =>
        { responses := [], state := ir.2,
          lookups := [req.body.targetUserId], sends := [] }
      | some isVideoStr =>
        let message := buildMessage fcmToken req.body.channelName
          req.body.callerId (truthy ivc) isVideoStr now
        match env.sendResult message with
        | Except.ok messageId =>
          { responses := [Response.success messageId], state := ir.2,
            lookups := [req.body.targetUserId], sends := [message] }
        | Except.error sendError =>
          if sendError.code == "messaging/invalid-registration-token"
              || sendError.code == "messaging/registration-token-not-registered" then
            { responses := [Response.invalidToken], state := ir.2,
              lookups := [req.body.targetUserId], sends := [message] }
          else
            { responses := [Response.serviceError], state := ir.2,
              lookups := [req.body.targetUserId], sends := [message] }

/-- The spec's per-field violation test, stated from the spec's words for
comparison with the source's check: a field is violated when it is missing,
empty, or not a string. -/
def specViolatedField : JSVal → Bool
  | JSVal.str s => s == ""
  | _ => true

/-- A gateway configuration whose credential variable is present but fails
`JSON.parse`. -/
def demoGatewayEnv : GatewayEnv :=
  { serviceAccountRaw := some "not-a-json-document"
  , parseResult := fun _ => Except.error "Unexpected token n in JSON"
  , certInitResult := Except.ok ()
  , defaultInitResult := Except.ok () }

/-- The module state after `demoGatewayEnv`'s first (failed) initialisation:
one parse attempt performed, its error cached. -/
def failedState : GatewayState :=
  { firebaseReady := false, firebaseError := some "Unexpected token n in JSON",
    appsCount := 0, parseCount := 1, initCount := 0 }

/-- A healthy gateway configuration: credential present, parse and
initialisation succeed. -/
def okGatewayEnv : GatewayEnv :=
  { serviceAccountRaw := some "service-account-json"
  , parseResult := fun _ => Except.ok ()
  , certInitResult := Except.ok ()
  , defaultInitResult := Except.ok () }

/-- A user document that exists and carries a push token. -/
def demoUserDoc : UserDoc := { exists_ := true, fcmToken := JSVal.str "tok123" }

/-- A fully healthy environment: initialisation, lookup and send succeed. -/
def demoServerEnv : ServerEnv :=
  { gateway := okGatewayEnv
  , getUserDoc := fun _ => Except.ok demoUserDoc
  , sendResult := fun _ => Except.ok "projects/demo/messages/1" }

/-- An environment whose store lookup reports a non-existent document. -/
def notFoundEnv : ServerEnv :=
  { gateway := okGatewayEnv
  , getUserDoc := fun _ => Except.ok { exists_ := false, fcmToken := JSVal.undef }
  , sendResult := fun _ => Except.ok "projects/demo/messages/2" }

/-- An environment whose store lookup returns an existing document with an
empty push-token field. -/
def noTokenEnv : ServerEnv :=
  { gateway := okGatewayEnv
  , getUserDoc := fun _ => Except.ok { exists_ := true, fcmToken := JSVal.str "" }
  , sendResult := fun _ => Except.ok "projects/demo/messages/3" }

/-- The token-invalidity error the gateway reports for an unregistered
token. -/
def invalidTokenErr : SendErr := { code := "messaging/registration-token-not-registered" }

/-- An environment whose send operation always fails with
`invalidTokenErr`. -/
def failSendEnv : ServerEnv :=
  { gateway := okGatewayEnv
  , getUserDoc := fun _ => Except.ok demoUserDoc
  , sendResult := fun _ => Except.error invalidTokenErr }

/-- A well-formed request: three non-empty string fields, `isVideoCall`
absent. -/
def okReq : HttpRequest :=
  { contentType := some "application/json"
  , body := { targetUserId := JSVal.str "u1", channelName := JSVal.str "ch1"
            , callerId := JSVal.str "u2", isVideoCall := JSVal.undef } }

/-- A request violating two of the three required fields. -/
def badReq : HttpRequest :=
  { contentType := some "application/json"
  , body := { targetUserId := JSVal.str "u1", channelName := JSVal.undef
            , callerId := JSVal.num 5, isVideoCall := JSVal.undef } }

/-- A well-formed request except that `isVideoCall` is `null`. -/
def nullVideoReq : HttpRequest :=
  { contentType := some "application/json"
  , body := { targetUserId := JSVal.str "u1", channelName := JSVal.str "ch1"
            , callerId := JSVal.str "u2", isVideoCall := JSVal.null } }

/-- A second `null`-`isVideoCall` request, against a different target. -/
def nullVideoReq2 : HttpRequest :=
  { contentType := some "application/json"
  , body := { targetUserId := JSVal.str "u9", channelName := JSVal.str "ch9"
            , callerId := JSVal.str "u8", isVideoCall := JSVal.null } }

/-- A well-formed request whose `isVideoCall` is the non-boolean string
`"yes"`. -/
def strVideoReq : HttpRequest :=
  { contentType := some "application/json"
  , body := { targetUserId := JSVal.str "u1", channelName := JSVal.str "ch1"
            , callerId := JSVal.str "u2", isVideoCall := JSVal.str "yes" } }

/-- A request whose content-type header merely contains `application/json`
as a substring without being that media type, with an invalid body. -/
def sneakyReq : HttpRequest :=
  { contentType := some "xapplication/jsonx"
  , body := { targetUserId := JSVal.undef, channelName := JSVal.undef
            , callerId := JSVal.undef, isVideoCall := JSVal.undef } }

/-- A request with valid body fields but a plain-text content-type. -/
def plainTextReq : HttpRequest :=
  { contentType := some "text/plain", body := okReq.body }

/-- The source's per-field check `!v || typeof v !== 'string'` agrees with
the spec's "missing, empty, or not a string". -/
theorem fieldInvalid_eq_specViolated (v : JSVal) :
    (!(truthy v) || !(isString v)) = specViolatedField v := by
  cases v <;> simp [truthy, isString, specViolatedField]

/-- A `.toString()` on the defaulted `isVideoCall` value can only throw when
the request carried a literal `null` (absence is defaulted to `false`
first). -/
theorem jsToString_defaulted_none (v : JSVal)
    (h : jsToString (defaultedIsVideoCall v) = none) : v = JSVal.null := by
  cases v <;> simp_all [jsToString, defaultedIsVideoCall]

/-- On the success path up to message construction, the handler passes the
gateway exactly the message built from the resolved token, the body fields
and the defaulted `isVideoCall` value. -/
theorem handler_success_path (env : ServerEnv) (now : Nat) (req : HttpRequest)
    (s : GatewayState) (doc : UserDoc) (isVideoStr : String)
    (hct : contentTypeOk req.contentType = true)
    (hval : validateCallRequest req.body = [])
    (hinit : (initializeFirebase env.gateway s).1 = Except.ok ())
    (hdoc : env.getUserDoc req.body.targetUserId = Except.ok doc)
    (hex : doc.exists_ = true)
    (htok : truthy doc.fcmToken = true)
    (hivs : jsToString (defaultedIsVideoCall req.body.isVideoCall) = some isVideoStr) :
    (sendCallHandler env now req s).sends =
      [buildMessage doc.fcmToken req.body.channelName req.body.callerId
        (truthy (defaultedIsVideoCall req.body.isVideoCall)) isVideoStr now] := by
  simp [sendCallHandler, hct, hval, hinit, hdoc, hex, htok, hivs]
  cases h : env.sendResult (buildMessage doc.fcmToken req.body.channelName
      req.body.callerId (truthy (defaultedIsVideoCall req.body.isVideoCall))
      isVideoStr now) with
  | ok mid => simp [h]
  | error e => simp only [h]; split <;> rfl

/-- When the defaulted `isVideoCall` has no `.toString()` (it is `null`),
the handler's message construction throws: no response is emitted and no
send is performed. -/
theorem handler_throw_path (env : ServerEnv) (now : Nat) (req : HttpRequest)
    (s : GatewayState) (doc : UserDoc)
    (hct : contentTypeOk req.contentType = true)
    (hval : validateCallRequest req.body = [])
    (hinit : (initializeFirebase env.gateway s).1 = Except.ok ())
    (hdoc : env.getUserDoc req.body.targetUserId = Except.ok doc)
    (hex : doc.exists_ = true)
    (htok : truthy doc.fcmToken = true)
    (hnone : jsToString (defaultedIsVideoCall req.body.isVideoCall) = none) :
    (sendCallHandler env now req s).responses = [] ∧
    (sendCallHandler env now req s).sends = [] := by
  constructor <;> simp [sendCallHandler, hct, hval, hinit, hdoc, hex, htok, hnone]

/-- Claim C1: the gateway-client lifecycle transitions only from
Uninitialized to Ready or to Failed, and both outcomes are terminal-stable:
with success recorded, every later `initializeFirebase` call returns success
with the state (hence all attempt counters) unchanged; with a failure
recorded, every later call returns that same cached failure with the state
unchanged (no second credential parse); from the uninitialized state one
call ends Ready (returning success) or Failed (returning the recorded
cause). -/
theorem initializeFirebase_lifecycle (env : GatewayEnv) (s : GatewayState) :
    (s.firebaseReady = true → initializeFirebase env s = (Except.ok (), s)) ∧
    (∀ e, s.firebaseReady = false → s.firebaseError = some e →
      initializeFirebase env s = (Except.error e, s)) ∧
    (s.firebaseReady = false → s.firebaseError = none →
      ((initializeFirebase env s).2.firebaseReady = true ∧
        (initializeFirebase env s).2.firebaseError = none ∧
        (initializeFirebase env s).1 = Except.ok ()) ∨
      (∃ e, (initializeFirebase env s).2.firebaseReady = false ∧
        (initializeFirebase env s).2.firebaseError = some e ∧
        (initializeFirebase env s).1 = Except.error e)) := by
  refine ⟨?_, ?_, ?_⟩
  · intro h; simp [initializeFirebase, h]
  · intro e h1 h2; simp [initializeFirebase, h1, h2]
  · intro h1 h2
    simp only [initializeFirebase, h1, h2]
    cases henv : env.serviceAccountRaw with
    | none =>
      by_cases happ : s.appsCount == 0
      · cases hd : env.defaultInitResult with
        | ok u => left; simp [happ, hd]
        | error e => right; exact ⟨e, by simp [happ, hd], by simp [happ, hd], by simp [happ, hd]⟩
      · left; simp [happ, h2]
    | some raw =>
      cases hp : env.parseResult raw with
      | error e => right; exact ⟨e, by simp [hp], by simp [hp], by simp [hp]⟩
      | ok u =>
        by_cases happ : s.appsCount == 0
        · cases hc : env.certInitResult with
          | ok v => left; simp [hp, happ, hc]
          | error e => right; exact ⟨e, by simp [hp, happ, hc], by simp [hp, happ, hc], by simp [hp, happ, hc]⟩
        · left; simp [hp, happ, h2]

/-- Claim C1 witness: after a failed credential parse, a later call returns
the very cached error with the state (parse counter included) unchanged. -/
theorem initializeFirebase_lifecycle_witness :
    initializeFirebase demoGatewayEnv failedState =
      (Except.error "Unexpected token n in JSON", failedState) :=
  (initializeFirebase_lifecycle demoGatewayEnv failedState).2.1
    "Unexpected token n in JSON" rfl rfl

/-- Claim C2: for every request body, `validateCallRequest` returns one
field-error entry per field that is missing, empty, or not a string — all of
them, so the error-list length equals the number of violated fields; with no
violated field it returns the empty list; and whenever a field is violated
(and the content-type gate passed), the endpoint responds 400 carrying
exactly that list as `details`. -/
theorem validateCallRequest_reports_all (env : ServerEnv) (now : Nat)
    (req : HttpRequest) (s : GatewayState) :
    ((validateCallRequest req.body).length =
      (if specViolatedField req.body.targetUserId then 1 else 0)
      + (if specViolatedField req.body.channelName then 1 else 0)
      + (if specViolatedField req.body.callerId then 1 else 0)) ∧
    (specViolatedField req.body.targetUserId = false →
      specViolatedField req.body.channelName = false →
      specViolatedField req.body.callerId = false →
      validateCallRequest req.body = []) ∧
    (contentTypeOk req.contentType = true →
      0 < (validateCallRequest req.body).length →
      (sendCallHandler env now req s).responses =
        [Response.badRequest (validateCallRequest req.body)] ∧
      Response.status (Response.badRequest (validateCallRequest req.body)) = 400) := by
  have e1 := fieldInvalid_eq_specViolated req.body.targetUserId
  have e2 := fieldInvalid_eq_specViolated req.body.channelName
  have e3 := fieldInvalid_eq_specViolated req.body.callerId
  refine ⟨?_, ?_, ?_⟩
  · cases h1 : specViolatedField req.body.targetUserId <;>
    cases h2 : specViolatedField req.body.channelName <;>
    cases h3 : specViolatedField req.body.callerId <;>
      simp [validateCallRequest, e1, e2, e3, h1, h2, h3]
  · intro h1 h2 h3
    simp [validateCallRequest, e1, e2, e3, h1, h2, h3]
  · intro hct hlen
    refine ⟨?_, rfl⟩
    simp [sendCallHandler, hct, hlen, Nat.not_eq_zero_of_lt hlen]

/-- Claim C2 witness: a body with a valid `targetUserId` but absent
`channelName` and numeric `callerId` yields exactly two error details and a
400 response carrying them. -/
theorem validateCallRequest_reports_all_witness :
    (sendCallHandler demoServerEnv 0 badReq GatewayState.initial).responses =
      [Response.badRequest (validateCallRequest badReq.body)] ∧
    Response.status (Response.badRequest (validateCallRequest badReq.body)) = 400 :=
  (validateCallRequest_reports_all demoServerEnv 0 badReq GatewayState.initial).2.2
    (by decide) (by decide)

/-- Claim C3: a send failure whose `code` is one of the two token-invalidity
codes is answered with the InvalidToken outcome (status 400), and every
other send failure with the generic gateway-error outcome (status 503); the
two outcomes are distinct, and together they cover every send failure. -/
theorem sendError_classification (env : ServerEnv) (now : Nat)
    (req : HttpRequest) (s : GatewayState) (doc : UserDoc) (isVideoStr : String)
    (e : SendErr)
    (hct : contentTypeOk req.contentType = true)
    (hval : validateCallRequest req.body = [])
    (hinit : (initializeFirebase env.gateway s).1 = Except.ok ())
    (hdoc : env.getUserDoc req.body.targetUserId = Except.ok doc)
    (hex : doc.exists_ = true)
    (htok : truthy doc.fcmToken = true)
    (hivs : jsToString (defaultedIsVideoCall req.body.isVideoCall) = some isVideoStr)
    (hsend : ∀ m, env.sendResult m = Except.error e) :
    (sendCallHandler env now req s).responses =
      [if e.code == "messaging/invalid-registration-token"
          || e.code == "messaging/registration-token-not-registered"
        then Response.invalidToken else Response.serviceError] ∧
    Response.status Response.invalidToken = 400 ∧
    Response.status Response.serviceError = 503 ∧
    Response.invalidToken ≠ Response.serviceError := by
  refine ⟨?_, rfl, rfl, by decide⟩
  simp only [sendCallHandler]
  simp [hct, hval, hinit, hdoc, hex, htok, hivs, hsend]
  split <;> simp

/-- Claim C3 witness: with a gateway reporting an unregistered token, the
endpoint answers InvalidToken with status 400. -/
theorem sendError_classification_witness :
    (sendCallHandler failSendEnv 0 okReq GatewayState.initial).responses =
      [Response.invalidToken] ∧
    Response.status Response.invalidToken = 400 := by
  have h := sendError_classification failSendEnv 0 okReq GatewayState.initial
    demoUserDoc "false" invalidTokenErr rfl rfl rfl rfl rfl (by decide) rfl
    (fun _ => rfl)
  exact ⟨h.1.trans (by decide), h.2.1⟩

/-- Claim C4: when the target user record does not exist, the pipeline ends
with the 404 not-found outcome and the gateway send operation is never
invoked. -/
theorem targetNotFound_no_send (env : ServerEnv) (now : Nat)
    (req : HttpRequest) (s : GatewayState) (doc : UserDoc)
    (hct : contentTypeOk req.contentType = true)
    (hval : validateCallRequest req.body = [])
    (hinit : (initializeFirebase env.gateway s).1 = Except.ok ())
    (hdoc : env.getUserDoc req.body.targetUserId = Except.ok doc)
    (hex : doc.exists_ = false) :
    (sendCallHandler env now req s).responses = [Response.targetNotFound] ∧
    Response.status Response.targetNotFound = 404 ∧
    (sendCallHandler env now req s).sends = [] := by
  refine ⟨?_, rfl, ?_⟩ <;> simp [sendCallHandler, hct, hval, hinit, hdoc, hex]

/-- Claim C4 witness: a concrete request for a missing record gets the 404
outcome and produces no send. -/
theorem targetNotFound_no_send_witness :
    (sendCallHandler notFoundEnv 0 okReq GatewayState.initial).responses =
      [Response.targetNotFound] ∧
    Response.status Response.targetNotFound = 404 ∧
    (sendCallHandler notFoundEnv 0 okReq GatewayState.initial).sends = [] :=
  targetNotFound_no_send notFoundEnv 0 okReq GatewayState.initial
    { exists_ := false, fcmToken := JSVal.undef } rfl rfl rfl rfl rfl

/-- Claim C5: when the target record exists but its push-token field is
absent or the empty string, the pipeline ends with the 400 no-token outcome,
the gateway send operation is never invoked, and that outcome differs from
the not-found one. -/
theorem noToken_no_send (env : ServerEnv) (now : Nat)
    (req : HttpRequest) (s : GatewayState) (doc : UserDoc)
    (hct : contentTypeOk req.contentType = true)
    (hval : validateCallRequest req.body = [])
    (hinit : (initializeFirebase env.gateway s).1 = Except.ok ())
    (hdoc : env.getUserDoc req.body.targetUserId = Except.ok doc)
    (hex : doc.exists_ = true)
    (htok : doc.fcmToken = JSVal.undef ∨ doc.fcmToken = JSVal.str "") :
    (sendCallHandler env now req s).responses = [Response.noToken] ∧
    Response.status Response.noToken = 400 ∧
    (sendCallHandler env now req s).sends = [] ∧
    Response.noToken ≠ Response.targetNotFound := by
  have hfalse : truthy doc.fcmToken = false := by
    rcases htok with h | h <;> simp [truthy, h]
  refine ⟨?_, rfl, ?_, by decide⟩ <;>
    simp [sendCallHandler, hct, hval, hinit, hdoc, hex, hfalse]

/-- Claim C5 witness: an existing record with an empty token field gets the
400 no-token outcome and produces no send. -/
theorem noToken_no_send_witness :
    (sendCallHandler noTokenEnv 0 okReq GatewayState.initial).responses =
      [Response.noToken] ∧
    Response.status Response.noToken = 400 ∧
    (sendCallHandler noTokenEnv 0 okReq GatewayState.initial).sends = [] :=
  have h := noToken_no_send noTokenEnv 0 okReq GatewayState.initial
    { exists_ := true, fcmToken := JSVal.str "" } rfl rfl rfl rfl rfl (Or.inr rfl)
  ⟨h.1, h.2.1, h.2.2.1⟩

/-- Claim C6: on an otherwise-valid request, an absent `isVideoCall` is
defaulted to `false` and yields the audio body variant with `is_video`
exactly `"false"`; `isVideoCall = true` yields the video variant with
`is_video` exactly `"true"`; `isVideoCall = false` the audio variant with
`"false"`. -/
theorem isVideoCall_defaulting (env : ServerEnv) (now : Nat)
    (req : HttpRequest) (s : GatewayState) (doc : UserDoc)
    (hct : contentTypeOk req.contentType = true)
    (hval : validateCallRequest req.body = [])
    (hinit : (initializeFirebase env.gateway s).1 = Except.ok ())
    (hdoc : env.getUserDoc req.body.targetUserId = Except.ok doc)
    (hex : doc.exists_ = true)
    (htok : truthy doc.fcmToken = true) :
    (req.body.isVideoCall = JSVal.undef →
      ∃ m, (sendCallHandler env now req s).sends = [m] ∧
        m.notification.body = "Аудиовызов" ∧ m.data.is_video = "false") ∧
    (req.body.isVideoCall = JSVal.bool true →
      ∃ m, (sendCallHandler env now req s).sends = [m] ∧
        m.notification.body = "Видеовызов" ∧ m.data.is_video = "true") ∧
    (req.body.isVideoCall = JSVal.bool false →
      ∃ m, (sendCallHandler env now req s).sends = [m] ∧
        m.notification.body = "Аудиовызов" ∧ m.data.is_video = "false") := by
  refine ⟨?_, ?_, ?_⟩
  · intro hv
    have hivs : jsToString (defaultedIsVideoCall req.body.isVideoCall) = some "false" := by
      simp [hv, defaultedIsVideoCall, jsToString]
    refine ⟨_, handler_success_path env now req s doc "false"
      hct hval hinit hdoc hex htok hivs, ?_, rfl⟩
    simp [buildMessage, hv, defaultedIsVideoCall, truthy]
  · intro hv
    have hivs : jsToString (defaultedIsVideoCall req.body.isVideoCall) = some "true" := by
      simp [hv, defaultedIsVideoCall, jsToString]
    refine ⟨_, handler_success_path env now req s doc "true"
      hct hval hinit hdoc hex htok hivs, ?_, rfl⟩
    simp [buildMessage, hv, defaultedIsVideoCall, truthy]
  · intro hv
    have hivs : jsToString (defaultedIsVideoCall req.body.isVideoCall) = some "false" := by
      simp [hv, defaultedIsVideoCall, jsToString]
    refine ⟨_, handler_success_path env now req s doc "false"
      hct hval hinit hdoc hex htok hivs, ?_, rfl⟩
    simp [buildMessage, hv, defaultedIsVideoCall, truthy]

/-- Claim C6 witness: a request with `isVideoCall` absent sends a message
with the audio body and `is_video = "false"`. -/
theorem isVideoCall_defaulting_witness :
    ∃ m, (sendCallHandler demoServerEnv 0 okReq GatewayState.initial).sends = [m] ∧
      m.notification.body = "Аудиовызов" ∧ m.data.is_video = "false" :=
  (isVideoCall_defaulting demoServerEnv 0 okReq GatewayState.initial demoUserDoc
    rfl rfl rfl rfl rfl (by decide)).1 rfl

/-- Claim C7 (amended): both variants set the background-delivery flags
`content-available = 1` and `mutable-content = 1`; the alert sub-block
repeating the notification title/body exists only in the variant copy's
message — the `api/index.js` message carries no alert sub-block. -/
theorem apns_background_flags (t c cid : JSVal) (iv : Bool) (ivs : String)
    (now : Nat) :
    (buildMessage t c cid iv ivs now).apns.payload_aps.content_available = 1 ∧
    (buildMessage t c cid iv ivs now).apns.payload_aps.mutable_content = 1 ∧
    (buildMessage t c cid iv ivs now).apns.payload_aps.alert = none ∧
    (buildMessageAlt t c cid iv ivs now).apns.payload_aps.content_available = 1 ∧
    (buildMessageAlt t c cid iv ivs now).apns.payload_aps.mutable_content = 1 ∧
    (buildMessageAlt t c cid iv ivs now).apns.payload_aps.alert =
      some { title := (buildMessageAlt t c cid iv ivs now).notification.title
           , body := (buildMessageAlt t c cid iv ivs now).notification.body } :=
  ⟨rfl, rfl, rfl, rfl, rfl, rfl⟩

/-- Claim C7 counterexample: the message `api/index.js` builds has no alert
sub-block in its iOS `aps` object at a concrete input, refuting "includes an
alert sub-block carrying the same title and body". -/
theorem apns_alert_absent_cex :
    (buildMessage (JSVal.str "tok123") (JSVal.str "ch1") (JSVal.str "u2")
      false "false" 0).apns.payload_aps.alert = none := rfl

/-- Claim C8 (amended): every execution performs at most one store lookup,
at most one gateway send and emits at most one response; an execution can
only end with no response when `isVideoCall` was the literal `null`, whose
`.toString()` throws during message construction. -/
theorem handler_single_effects (env : ServerEnv) (now : Nat)
    (req : HttpRequest) (s : GatewayState) :
    (sendCallHandler env now req s).lookups.length ≤ 1 ∧
    (sendCallHandler env now req s).sends.length ≤ 1 ∧
    (sendCallHandler env now req s).responses.length ≤ 1 ∧
    ((sendCallHandler env now req s).responses = [] →
      req.body.isVideoCall = JSVal.null) := by
  cases hct : contentTypeOk req.contentType with
  | false => simp [sendCallHandler, hct]
  | true =>
    by_cases hval : (validateCallRequest req.body).length > 0
    · simp [sendCallHandler, hct, hval]
    · cases hinit : (initializeFirebase env.gateway s).1 with
      | error e => simp [sendCallHandler, hct, hval, hinit]
      | ok u =>
        cases hdoc : env.getUserDoc req.body.targetUserId with
        | error e => simp [sendCallHandler, hct, hval, hinit, hdoc]
        | ok doc =>
          cases hex : doc.exists_ with
          | false => simp [sendCallHandler, hct, hval, hinit, hdoc, hex]
          | true =>
            cases htok : truthy doc.fcmToken with
            | false => simp [sendCallHandler, hct, hval, hinit, hdoc, hex, htok]
            | true =>
              cases hivs : jsToString (defaultedIsVideoCall req.body.isVideoCall) with
              | none =>
                refine ⟨?_, ?_, ?_, fun _ => jsToString_defaulted_none _ hivs⟩ <;>
                  simp [sendCallHandler, hct, hval, hinit, hdoc, hex, htok, hivs]
              | some ivs =>
                cases hres : env.sendResult (buildMessage doc.fcmToken
                    req.body.channelName req.body.callerId
                    (truthy (defaultedIsVideoCall req.body.isVideoCall)) ivs now) with
                | ok mid =>
                  simp [sendCallHandler, hct, hval, hinit, hdoc, hex, htok, hivs, hres]
                | error e =>
                  refine ⟨?_, ?_, ?_, ?_⟩ <;>
                    simp [sendCallHandler, hct, hval, hinit, hdoc, hex, htok,
                      hivs, hres] <;> split <;> simp

/-- Claim C8 witness: the bounds instantiated at a healthy end-to-end
request. -/
theorem handler_single_effects_witness :
    (sendCallHandler demoServerEnv 0 okReq GatewayState.initial).lookups.length ≤ 1 ∧
    (sendCallHandler demoServerEnv 0 okReq GatewayState.initial).sends.length ≤ 1 ∧
    (sendCallHandler demoServerEnv 0 okReq GatewayState.initial).responses.length ≤ 1 ∧
    ((sendCallHandler demoServerEnv 0 okReq GatewayState.initial).responses = [] →
      okReq.body.isVideoCall = JSVal.null) :=
  handler_single_effects demoServerEnv 0 okReq GatewayState.initial

/-- Claim C8 counterexample: a request whose `isVideoCall` is `null` passes
validation, yet the handler's message construction throws and it emits no
response at all — refuting "emits exactly one response" for every
execution. -/
theorem handler_no_response_cex :
    validateCallRequest nullVideoReq.body = [] ∧
    (sendCallHandler demoServerEnv 0 nullVideoReq GatewayState.initial).responses = [] :=
  ⟨rfl, rfl⟩

/-- Claim C9 (amended): when the content-type header is absent or does not
contain `application/json` as a substring (the source tests containment,
not equality), the response is 415 regardless of the body, no validation
outcome is reported, no lookup or send happens, and the gateway state is
untouched. -/
theorem unsupportedMediaType_gate (env : ServerEnv) (now : Nat)
    (req : HttpRequest) (s : GatewayState)
    (h : req.contentType = none ∨
      ∃ ct, req.contentType = some ct ∧ strIncludes ct "application/json" = false) :
    (sendCallHandler env now req s).responses = [Response.unsupportedMediaType] ∧
    Response.status Response.unsupportedMediaType = 415 ∧
    (sendCallHandler env now req s).lookups = [] ∧
    (sendCallHandler env now req s).sends = [] ∧
    (sendCallHandler env now req s).state = s := by
  have hok : contentTypeOk req.contentType = false := by
    rcases h with h | ⟨ct, hceq, hinc⟩
    · rw [h]; rfl
    · rw [hceq]; simp [contentTypeOk, hinc]
  refine ⟨?_, rfl, ?_, ?_, ?_⟩ <;> simp [sendCallHandler, hok]

/-- Claim C9 witness: a `text/plain` request with a perfectly valid body is
answered 415 with no lookup, no send and no state change. -/
theorem unsupportedMediaType_gate_witness :
    (sendCallHandler demoServerEnv 0 plainTextReq GatewayState.initial).responses =
      [Response.unsupportedMediaType] ∧
    Response.status Response.unsupportedMediaType = 415 ∧
    (sendCallHandler demoServerEnv 0 plainTextReq GatewayState.initial).lookups = [] ∧
    (sendCallHandler demoServerEnv 0 plainTextReq GatewayState.initial).sends = [] ∧
    (sendCallHandler demoServerEnv 0 plainTextReq GatewayState.initial).state =
      GatewayState.initial :=
  unsupportedMediaType_gate demoServerEnv 0 plainTextReq GatewayState.initial
    (Or.inr ⟨"text/plain", rfl, by decide⟩)

/-- Claim C9 counterexample: a content-type that is not `application/json`
but contains it as a substring passes the gate, so the (invalid) body is
validated and the response is 400, not 415 — refuting "not application/json
always yields 415". -/
theorem contentType_substring_cex :
    sneakyReq.contentType = some "xapplication/jsonx" ∧
    "xapplication/jsonx" ≠ "application/json" ∧
    (sendCallHandler demoServerEnv 0 sneakyReq GatewayState.initial).responses.map
      Response.status = [400] :=
  ⟨rfl, by decide, by decide⟩

/-- Claim C10 (amended): a non-boolean `isVideoCall` is never rejected by
validation (validation is independent of that field); for a string value
the pipeline proceeds, picks the body variant by the string's truthiness
and stringifies it verbatim into `is_video`; likewise for a number value
via its decimal stringification; but for the literal `null` the
`.toString()` call throws, so no message is sent and no response emitted. -/
theorem isVideoCall_non_boolean (env : ServerEnv) (now : Nat)
    (req : HttpRequest) (s : GatewayState) (doc : UserDoc)
    (hct : contentTypeOk req.contentType = true)
    (hval : validateCallRequest req.body = [])
    (hinit : (initializeFirebase env.gateway s).1 = Except.ok ())
    (hdoc : env.getUserDoc req.body.targetUserId = Except.ok doc)
    (hex : doc.exists_ = true)
    (htok : truthy doc.fcmToken = true) :
    (∀ v w, validateCallRequest { req.body with isVideoCall := v } =
      validateCallRequest { req.body with isVideoCall := w }) ∧
    (∀ sv, req.body.isVideoCall = JSVal.str sv →
      ∃ m, (sendCallHandler env now req s).sends = [m] ∧
        m.data.is_video = sv ∧
        m.notification.body =
          (if sv == "" then "Аудиовызов" else "Видеовызов")) ∧
    (∀ n : Int, req.body.isVideoCall = JSVal.num n →
      ∃ m, (sendCallHandler env now req s).sends = [m] ∧
        m.data.is_video = toString n ∧
        m.notification.body =
          (if n == 0 then "Аудиовызов" else "Видеовызов")) ∧
    (req.body.isVideoCall = JSVal.null →
      (sendCallHandler env now req s).responses = [] ∧
      (sendCallHandler env now req s).sends = []) := by
  refine ⟨fun v w => rfl, ?_, ?_, ?_⟩
  · intro sv hv
    have hivs : jsToString (defaultedIsVideoCall req.body.isVideoCall) = some sv := by
      simp [hv, defaultedIsVideoCall, jsToString]
    refine ⟨_, handler_success_path env now req s doc sv
      hct hval hinit hdoc hex htok hivs, rfl, ?_⟩
    cases h : sv == "" <;>
      simp [buildMessage, hv, defaultedIsVideoCall, truthy, h]
  · intro n hv
    have hivs : jsToString (defaultedIsVideoCall req.body.isVideoCall) =
        some (toString n) := by
      simp [hv, defaultedIsVideoCall, jsToString]
    refine ⟨_, handler_success_path env now req s doc (toString n)
      hct hval hinit hdoc hex htok hivs, rfl, ?_⟩
    cases h : n == 0 <;>
      simp [buildMessage, hv, defaultedIsVideoCall, truthy, h]
  · intro hv
    have hnone : jsToString (defaultedIsVideoCall req.body.isVideoCall) = none := by
      simp [hv, defaultedIsVideoCall, jsToString]
    exact handler_throw_path env now req s doc hct hval hinit hdoc hex htok hnone

/-- Claim C10 witness: `isVideoCall = "yes"` passes through as is: the video
variant is selected and `is_video` is the string `"yes"` itself. -/
theorem isVideoCall_non_boolean_witness :
    ∃ m, (sendCallHandler demoServerEnv 0 strVideoReq GatewayState.initial).sends = [m] ∧
      m.data.is_video = "yes" ∧ m.notification.body = "Видеовызов" := by
  obtain ⟨m, h1, h2, h3⟩ :=
    (isVideoCall_non_boolean demoServerEnv 0 strVideoReq GatewayState.initial
      demoUserDoc rfl rfl rfl rfl rfl (by decide)).2.1 "yes" rfl
  exact ⟨m, h1, h2, h3.trans (by decide)⟩

/-- Claim C10 counterexample: `isVideoCall = null` is not rejected by
validation, yet the pipeline does not proceed to a send with a stringified
`is_video`: the `.toString()` on `null` throws, nothing is sent and no
response is emitted. -/
theorem isVideoCall_null_cex :
    validateCallRequest nullVideoReq2.body = [] ∧
    (sendCallHandler demoServerEnv 0 nullVideoReq2 GatewayState.initial).sends = [] ∧
    (sendCallHandler demoServerEnv 0 nullVideoReq2 GatewayState.initial).responses = [] :=
  ⟨rfl, rfl, rfl⟩

end FcmRelay
